import Mathlib

set_option maxRecDepth 10000

/-!
Shallow embedding of the Mebay genset controller integration
(`mebay.py`) and of the `timeout` helper (`utils.py`) of the
dbus-modbus-client repository, together with proofs about the
alarm/warning decoder, the identification dispatch, the status map and
the start/stop command sequencer.
-/

/-- Alarm code table `alarm_codes` of mebay.py (register 0x1043); only
one alarm can be active at a time. -/
def alarm_codes : List (Nat × String) :=
  [(1, "Over speed"),
   (2, "Under speed"),
   (3, "Low oil pressure sensor"),
   (4, "Low oil pressure switch"),
   (5, "High water temperature sensor"),
   (6, "High water temperature switch"),
   (7, "High oil temperature sensor"),
   (8, "High oil temperature switch"),
   (17, "Instant alarm switch"),
   (19, "RPM signal lost"),
   (20, "Oil pressure sensor open"),
   (21, "Water temperature sensor open"),
   (26, "Over frequency"),
   (27, "Under frequency"),
   (28, "Over voltage"),
   (29, "Under voltage"),
   (30, "Over current"),
   (32, "Over power"),
   (39, "Maintenance expire"),
   (44, "Low water switch level"),
   (46, "Emergency stop"),
   (47, "Crank failure"),
   (48, "Stop failure w/ RPM"),
   (49, "Stop failure w/ Hz"),
   (50, "Stop failure w/ oil pressure"),
   (51, "Stop failure w/ oil pressure switch")]

/-- Warning bit table `warning_code_1` of mebay.py (register 0x1047). -/
def warning_code_1 : List (Nat × String) :=
  [(12, "Low fuel level sensor"),
   (13, "Low fuel level switch")]

/-- Warning bit table `warning_code_2` of mebay.py (register 0x1046). -/
def warning_code_2 : List (Nat × String) :=
  [(0, "Instant alarm switch"),
   (2, "RPM signal lost"),
   (3, "Oil pressure sensor open"),
   (4, "Water temperature sensor open"),
   (8, "Fuel level sensor open"),
   (13, "Over current"),
   (15, "Over power")]

/-- Warning bit table `warning_code_3` of mebay.py (register 0x1045). -/
def warning_code_3 : List (Nat × String) :=
  [(6, "Maintenance expire"),
   (12, "Over battery voltage"),
   (13, "Under battery voltage")]

/-- Warning bit table `warning_code_4` of mebay.py (register 0x1044),
empty in the source. -/
def warning_code_4 : List (Nat × String) := []

/-- Bit unpacking generator `unpack_bits` of mebay.py: for i in
range(15, 0, -1) it yields (val >> i) & 1, i.e. bits 15 down to 1. -/
def unpack_bits (val : Nat) : List Nat :=
  (List.range' 1 15).reverse.map (fun i => (val >>> i) &&& 1)

/-- One pass of the warning loop of `Mebay_Generator.alarm_changed` for
the warning word at processing slot `i` (so with table offset 0x10 * i):
for v in enumerate(unpack_bits(bits)): if v[1]: emit ("w", offset + v[0]). -/
def wordFaults (i : Nat) (bits : Nat) : List (String × Nat) :=
  (unpack_bits bits).enum.filterMap
    (fun v => if v.2 ≠ 0 then some ("w", 0x10 * i + v.1) else none)

/-- Fault-list computation `Mebay_Generator.alarm_changed`, applied to
the alarm-register block value taken as plain unsigned 16-bit words (the
integers promised by the decode docstring of `Reg_Mebay_alarms`):
`value[0]` is the alarm code, and the warning words `value[1:]` are
processed in reversed order (`[::-1]`). -/
def alarm_changed (value : List Nat) : List (String × Nat) :=
  (match value with
   | v0 :: _ => if alarm_codes.any (fun kv => kv.1 == v0) then [("e", v0)] else []
   | [] => [])
  ++ ((value.drop 1).reverse.enum.flatMap (fun iw => wordFaults iw.1 iw.2))

/-- Identification decode `Reg_Mebay_ident.decode` of mebay.py: the
2-word block at 0x1048 is formatted as the f-string of the two words
joined by a dash. -/
def Reg_Mebay_ident_decode (model_number hw_version : Nat) : String :=
  toString model_number ++ "-" ++ toString hw_version

/-- Handler classes registered in the `models` table of mebay.py. -/
inductive MebayHandler where
  | Mebay_DC40x_Generator
deriving DecidableEq

/-- Model table `models` of mebay.py: identification key, model name and
handler class. -/
def models : List (String × String × MebayHandler) :=
  [("16576-512", ("DC40R", MebayHandler.Mebay_DC40x_Generator))]

/-- Modelled from the spec: probe dispatch (`probe.ModelRegister`, not
under src/) matches the identification key against the model table by
exact string lookup; a key that is absent selects no model and the
device is left unclaimed (spec section 4.4). -/
def lookup_model (k : String) : Option (String × MebayHandler) :=
  (models.find? (fun kv => kv.1 == k)).map (fun kv => kv.2)

/-- Python value held in the decoded alarm register: `struct.unpack`
returns a one-element tuple, so `Reg_Mebay_alarms.decode` stores a list
of tuples, not of ints. -/
inductive PyVal where
  | int : Nat → PyVal
  | tup : List Nat → PyVal
deriving DecidableEq

/-- One element of the decode comprehension of `Reg_Mebay_alarms.decode`:
struct.unpack("H", struct.pack("H", v)).  For an in-range word this is
the one-element tuple (v,); out-of-range words raise struct.error. -/
def struct_pack_unpack_H (v : Nat) : Except String PyVal :=
  if v < 65536 then Except.ok (PyVal.tup [v]) else Except.error "struct.error"

/-- Register decode `Reg_Mebay_alarms.decode` of mebay.py, as written:
the stored value is the list of one-element tuples produced by
struct.unpack over the five raw words. -/
def Reg_Mebay_alarms_decode (values : List Nat) : Except String (List PyVal) :=
  values.mapM struct_pack_unpack_H

/-- Python right shift: an int shifts, a tuple raises TypeError. -/
def py_shiftRight (v : PyVal) (k : Nat) : Except String Nat :=
  match v with
  | PyVal.int n => Except.ok (n >>> k)
  | PyVal.tup _ => Except.error "TypeError"

/-- The `unpack_bits` generator run on a decoded (Python-typed) word:
the first next() already evaluates (val >> 15) & 1, so a tuple word
raises TypeError before any bit is produced. -/
def unpack_bits_py (v : PyVal) : Except String (List Nat) :=
  (List.range' 1 15).reverse.mapM (fun i => (py_shiftRight v i).map (fun n => n &&& 1))

/-- One pass of the warning loop of `Mebay_Generator.alarm_changed` on a
Python-typed word. -/
def wordFaults_py (i : Nat) (v : PyVal) : Except String (List (String × Nat)) :=
  (unpack_bits_py v).map
    (fun bits => bits.enum.filterMap
      (fun x => if x.2 ≠ 0 then some ("w", 0x10 * i + x.1) else none))

/-- Fault-list computation `Mebay_Generator.alarm_changed` applied to the
value actually stored by `Reg_Mebay_alarms_decode` (a list of Python
tuples).  The dict membership test `reg.value[0] in alarm_codes` compares
a tuple against the int keys of the table and is therefore always false;
shifting a tuple word raises TypeError, which aborts the whole callback
before `set_error_ids` runs. -/
def alarm_changed_py (value : List PyVal) : Except String (List (String × Nat)) :=
  match value with
  | [] => Except.error "IndexError"
  | v0 :: rest =>
    (let eids1 : List (String × Nat) :=
      match v0 with
      | PyVal.int n => if alarm_codes.any (fun kv => kv.1 == n) then [("e", n)] else []
      | PyVal.tup _ => []
    (rest.reverse.enum.mapM (fun iw => wordFaults_py iw.1 iw.2)).map
      (fun ls => eids1 ++ ls.flatten))

/-- Vendor-status table of `Mebay_Generator.__init__` (`Reg_mapu16` at
register 0x1041): raw controller status code to canonical operating-state
code (0 Stopped, 2/3 Starting, 8 Running, 9 Stopping). -/
def running_status_table : List (Nat × Nat) :=
  [(0, 9), (1, 9), (2, 0), (3, 9), (4, 0), (5, 0), (6, 0), (7, 2),
   (8, 2), (9, 2), (10, 3), (11, 3), (12, 3), (13, 3), (14, 3), (15, 3),
   (16, 3), (17, 3), (18, 8), (19, 8), (20, 9), (21, 9), (22, 9), (23, 9)]

/-- Modelled from the spec: `Reg_mapu16` (register.py, not under src/)
decodes by exact lookup in its mapping table and yields an explicit
unmapped outcome (`none`) for a raw code absent from the table, rather
than defaulting (spec sections 4.1 and 4.3). -/
def running_status_map (raw : Nat) : Option Nat :=
  (running_status_table.find? (fun kv => kv.1 == raw)).map (fun kv => kv.2)

/-- Control-function password constant `SCF_PASSWORD` of mebay.py. -/
def SCF_PASSWORD : Nat := 7623

/-- Control-function constant `SCF_SELECT_MANUAL_MODE` of mebay.py. -/
def SCF_SELECT_MANUAL_MODE : Nat := 0x2222

/-- Control-function constant `SCF_SELECT_AUTO_MODE` of mebay.py. -/
def SCF_SELECT_AUTO_MODE : Nat := 0x3333

/-- Control-function constant `SCF_TELEMETRY_START` of mebay.py. -/
def SCF_TELEMETRY_START : Nat := 0x5555

/-- Control-function constant `SCF_TELEMETRY_STOP` of mebay.py. -/
def SCF_TELEMETRY_STOP : Nat := 0x1111

/-- One issued `write_registers` transaction: (address, values). -/
abbrev WriteTx := Nat × List Nat

/-- Modelled from the spec: `device.read_register` (device.py, not under
src/) reads a register and returns its decoded value, so
`Mebay_Generator.is_running` compares the canonical operating-state code
decoded from the running-status register with 0. -/
def is_running (canonical_status : Nat) : Bool :=
  decide (0 < canonical_status)

/-- Start/stop callback `Mebay_Generator._start_genset`, hand-compiled
with Python exception semantics: `ok n` says whether the n-th
`write_registers` call of this invocation succeeds; a failing call is
still issued (it appears in the transaction log) but raises, aborting
the rest of the callback.  `running` is the value of `self.is_running()`
and `value` the written /Start value.  The result is the returned Python
value (or the propagated exception) together with the ordered log of
issued write transactions. -/
def _start_genset (ok : Nat → Bool) (running : Bool) (value : Bool) :
    Except String Bool × List WriteTx :=
  if value then
    if running then (Except.ok false, [])
    else
      let w1 : WriteTx := (0x2000, [SCF_PASSWORD, SCF_SELECT_MANUAL_MODE])
      if ok 0 then
        let w2 : WriteTx := (0x2000, [SCF_PASSWORD, SCF_TELEMETRY_START])
        if ok 1 then (Except.ok true, [w1, w2])
        else (Except.error "write failed", [w1, w2])
      else (Except.error "write failed", [w1])
  else
    let w : WriteTx := (0x2000, [SCF_PASSWORD, SCF_TELEMETRY_STOP])
    if ok 0 then (Except.ok true, [w])
    else (Except.error "write failed", [w])

/-- Python object with a `timeout` attribute: the attribute itself plus
all the other attributes, kept abstract. -/
structure PyObj (α β : Type) where
  timeout : α
  other : β

/-- Context-manager entry `utils.timeout.__enter__`: save the original
timeout and set the new one; returns the saved original. -/
def timeout_enter {α β : Type} (o : PyObj α β) (t : α) : α × PyObj α β :=
  (o.timeout, { o with timeout := t })

/-- Context-manager exit `utils.timeout.__exit__`: restore the saved
original timeout (runs on normal and on exceptional exit alike, and
returns None, so an exception keeps propagating). -/
def timeout_exit {α β : Type} (orig : α) (o : PyObj α β) : PyObj α β :=
  { o with timeout := orig }

/-- A `with utils.timeout(obj, t): body` block: enter, run the body on
the modified object (the body returns the possibly mutated object plus
either its result or a raised exception), then always run exit; the
body's exception, if any, propagates. -/
def with_timeout {α β ε γ : Type} (o : PyObj α β) (t : α)
    (body : PyObj α β → PyObj α β × Except ε γ) : PyObj α β × Except ε γ :=
  let s := timeout_enter o t
  let r := body s.2
  (timeout_exit s.1 r.1, r.2)

/-- Unfolding of `alarm_changed` on a 5-word register block: the alarm
part followed by the four warning words, processed from the highest
register address (value[4], register 0x1047) down to the lowest
(value[1], register 0x1044) with offsets 0x00, 0x10, 0x20, 0x30. -/
theorem alarm_changed_cons (a w1 w2 w3 w4 : Nat) :
    alarm_changed [a, w1, w2, w3, w4] =
      (if alarm_codes.any (fun kv => kv.1 == a) then [("e", a)] else [])
      ++ (wordFaults 0 w4 ++ (wordFaults 1 w3 ++ (wordFaults 2 w2 ++ wordFaults 3 w1))) := by
  simp [alarm_changed, List.enum, List.enumFrom]

/-- A set bit at position p (1 ≤ p ≤ 15) of a warning word makes the
warning loop emit the identifier offset + (15 - p), the enumerate index
of that bit. -/
theorem mem_wordFaults (i w p : Nat) (hp1 : 1 ≤ p) (hp2 : p ≤ 15)
    (hbit : (w >>> p) &&& 1 = 1) :
    ("w", 0x10 * i + (15 - p)) ∈ wordFaults i w := by
  apply List.mem_filterMap.mpr
  refine ⟨(15 - p, (w >>> p) &&& 1), ?_, by simp [hbit]⟩
  interval_cases p <;>
    simp [unpack_bits, List.range', List.enum, List.enumFrom]

/-- Every identifier emitted for the warning word at slot i lies in the
window [0x10 * i, 0x10 * i + 14]. -/
theorem wordFaults_bound (i w : Nat) (s : String) (c : Nat)
    (h : (s, c) ∈ wordFaults i w) : 0x10 * i ≤ c ∧ c ≤ 0x10 * i + 14 := by
  rcases List.mem_filterMap.mp h with ⟨⟨j, b⟩, hmem, hf⟩
  have hj : j < 15 := by
    have hlen : (unpack_bits w).length = 15 := by
      simp [unpack_bits]
    have := List.fst_lt_of_mem_enum (by exact hmem)
    omega
  by_cases hb : b ≠ 0
  · simp [hb] at hf
    omega
  · simp [hb] at hf

/-- Shifting right by at least one bit ignores bit 0. -/
theorem shiftRight_drop_bit0 (w b k : Nat) (hb : b ≤ 1) (hk : 1 ≤ k) :
    (2 * w + b) >>> k = (2 * w) >>> k := by
  obtain ⟨k', rfl⟩ : ∃ k', k = k' + 1 := ⟨k - 1, by omega⟩
  rw [Nat.shiftRight_eq_div_pow, Nat.shiftRight_eq_div_pow, pow_succ,
    mul_comm (2 ^ k') 2, ← Nat.div_div_eq_div_mul, ← Nat.div_div_eq_div_mul]
  congr 1
  omega

/-- `unpack_bits` never looks at bit 0 of its input. -/
theorem unpack_bits_drop_bit0 (w b : Nat) (hb : b ≤ 1) :
    unpack_bits (2 * w + b) = unpack_bits (2 * w) := by
  unfold unpack_bits
  apply List.map_congr_left
  intro i hi
  have h1 : 1 ≤ i := by
    rcases List.mem_range'_1.mp (List.mem_reverse.mp hi) with ⟨h, _⟩
    omega
  rw [shiftRight_drop_bit0 w b i hb h1]

/-- The warning loop never looks at bit 0 of its word. -/
theorem wordFaults_drop_bit0 (i w b : Nat) (hb : b ≤ 1) :
    wordFaults i (2 * w + b) = wordFaults i (2 * w) := by
  unfold wordFaults
  rw [unpack_bits_drop_bit0 w b hb]

/-- C1 counterexample: with alarm word 0 and warning word 1 (register
0x1047, table offset 0) equal to 0b0000000000000110, the decoder does
not emit the identifiers 1 and 2 claimed by the spec; it emits 13 and 14,
the enumerate indices of bits 2 and 1 in the 15..1 iteration. -/
theorem mebay_warning_identifier_counterexample :
    ("w", 1) ∉ alarm_changed [0, 0, 0, 0, 6] ∧
    ("w", 2) ∉ alarm_changed [0, 0, 0, 0, 6] ∧
    alarm_changed [0, 0, 0, 0, 6] = [("w", 13), ("w", 14)] := by
  decide

/-- C1 (amended): for every warning word and every set bit at position p
with 1 ≤ p ≤ 15, the decoder emits a Warning record whose identifier is
table_offset_for_this_word + (15 - p) — the enumerate index of the bit in
the 15..1 iteration — not offset + p; for warning word 1 = 0b0000000000000110
the output is exactly ("w", 13) followed by ("w", 14). -/
theorem mebay_warning_bit_identifier (a w1 w2 w3 w4 slot p : Nat)
    (hs : slot < 4) (hp1 : 1 ≤ p) (hp2 : p ≤ 15)
    (hbit : (([w4, w3, w2, w1].getD slot 0) >>> p) &&& 1 = 1) :
    ("w", 0x10 * slot + (15 - p)) ∈ alarm_changed [a, w1, w2, w3, w4] ∧
      alarm_changed [0, 0, 0, 0, 6] = [("w", 13), ("w", 14)] := by
  refine ⟨?_, by decide⟩
  rw [alarm_changed_cons]
  interval_cases slot <;> simp only [List.getD_cons_zero, List.getD_cons_succ] at hbit
  · exact List.mem_append_right _
      (List.mem_append_left _ (mem_wordFaults 0 w4 p hp1 hp2 hbit))
  · exact List.mem_append_right _ (List.mem_append_right _
      (List.mem_append_left _ (mem_wordFaults 1 w3 p hp1 hp2 hbit)))
  · exact List.mem_append_right _ (List.mem_append_right _ (List.mem_append_right _
      (List.mem_append_left _ (mem_wordFaults 2 w2 p hp1 hp2 hbit))))
  · exact List.mem_append_right _ (List.mem_append_right _ (List.mem_append_right _
      (List.mem_append_right _ (mem_wordFaults 3 w1 p hp1 hp2 hbit))))

/-- Witness for the amended C1 theorem at slot 0, bit 1 of word 6. -/
theorem mebay_warning_bit_identifier_witness :
    ((([6, 0, 0, 0] : List Nat).getD 0 0 >>> 1) &&& 1 = 1) ∧
      ("w", 0x10 * 0 + (15 - 1)) ∈ alarm_changed [0, 0, 0, 0, 6] :=
  ⟨by decide,
    (mebay_warning_bit_identifier 0 0 0 0 6 0 1 (by decide) (by decide) (by decide)
      (by decide)).1⟩

/-- C2: the alarm-block decode as written stores one-element tuples
(struct.unpack output), so composing it with the fault-list computation
raises TypeError on the snapshot [5, 0, 0, 0, 0] instead of producing
[("e", 5)]; on plain integer words (the decode docstring's stated
intent) the fault list is exactly [("e", 5)], and alarm word 0 yields no
record at all. -/
theorem mebay_alarm_pipeline_bug :
    (Reg_Mebay_alarms_decode [5, 0, 0, 0, 0] =
      Except.ok [PyVal.tup [5], PyVal.tup [0], PyVal.tup [0], PyVal.tup [0], PyVal.tup [0]]) ∧
    ((Reg_Mebay_alarms_decode [5, 0, 0, 0, 0]).bind alarm_changed_py =
      Except.error "TypeError") ∧
    alarm_changed [5, 0, 0, 0, 0] = [("e", 5)] ∧
    alarm_changed [0, 0, 0, 0, 0] = [] :=
  ⟨rfl, rfl, by decide, by decide⟩

/-- C3: the identification words 16576 and 512 are formatted as the key
"16576-512", which selects exactly the DC40R model entry with the
Mebay_DC40x_Generator handler; any other key selects no model. -/
theorem mebay_ident_dispatch :
    Reg_Mebay_ident_decode 16576 512 = "16576-512" ∧
    lookup_model "16576-512" = some ("DC40R", MebayHandler.Mebay_DC40x_Generator) ∧
    (∀ k : String, k ≠ "16576-512" → lookup_model k = none) := by
  refine ⟨rfl, rfl, ?_⟩
  intro k hk
  have hne : ("16576-512" == k) = false := by
    rw [beq_eq_false_iff_ne]
    exact fun h => hk h.symm
  simp [lookup_model, models, List.find?, hne]

/-- Witness for the identification-dispatch theorem at an unknown key. -/
theorem mebay_ident_dispatch_witness :
    ("99-99" ≠ "16576-512") ∧ lookup_model "99-99" = none :=
  ⟨by decide, mebay_ident_dispatch.2.2 "99-99" (by decide)⟩

/-- C4: when the decoded operating state is Running (canonical code 8),
a start request performs zero register writes and returns False
(rejected); and a start request issues writes only when is_running is
false. -/
theorem genset_start_rejected_when_running (ok : Nat → Bool) (raw : Nat)
    (h : running_status_map raw = some 8) :
    _start_genset ok (is_running ((running_status_map raw).getD 0)) true =
      (Except.ok false, []) ∧
    (∀ st : Nat, ((_start_genset ok (is_running st) true).2 ≠ []) →
      is_running st = false) := by
  constructor
  · rw [h]
    rfl
  · intro st hw
    cases hrun : is_running st
    · rfl
    · simp [_start_genset, hrun] at hw

/-- Witness for the start-rejection theorem at raw status 18 (Rated
running). -/
theorem genset_start_rejected_when_running_witness :
    running_status_map 18 = some 8 ∧
      _start_genset (fun _ => true) (is_running ((running_status_map 18).getD 0)) true =
        (Except.ok false, []) :=
  ⟨by decide, (genset_start_rejected_when_running (fun _ => true) 18 (by decide)).1⟩

/-- C5: a start request on a non-running device issues exactly the two
ordered write transactions (0x2000, [7623, 0x2222]) then
(0x2000, [7623, 0x5555]); when the first write fails the second is
skipped and the command errors out. -/
theorem genset_start_write_sequence (ok : Nat → Bool) :
    ((_start_genset ok false true).2 =
      if ok 0 = true
      then [(0x2000, [7623, 0x2222]), (0x2000, [7623, 0x5555])]
      else [(0x2000, [7623, 0x2222])]) ∧
    (ok 0 = false →
      _start_genset ok false true =
        (Except.error "write failed", [(0x2000, [7623, 0x2222])])) := by
  constructor
  · cases h0 : ok 0 <;> cases h1 : ok 1 <;>
      simp [_start_genset, SCF_PASSWORD, SCF_SELECT_MANUAL_MODE, SCF_TELEMETRY_START, h0, h1]
  · intro h0
    simp [_start_genset, SCF_PASSWORD, SCF_SELECT_MANUAL_MODE, h0]

/-- Witness for the start write sequence with a failing first write. -/
theorem genset_start_write_sequence_witness :
    ((fun _ : Nat => false) 0 = false) ∧
      _start_genset (fun _ => false) false true =
        (Except.error "write failed", [(0x2000, [7623, 0x2222])]) :=
  ⟨rfl, (genset_start_write_sequence (fun _ => false)).2 rfl⟩

/-- C6: every vendor status code 0..23 is a key of the Mebay status
table and maps to a canonical operating-state code in {0, 2, 3, 8, 9};
every code outside 0..23 (in particular 99) is absent and decodes to the
explicit unmapped outcome none, not to Stopped. -/
theorem mebay_status_map_canonical :
    (∀ c : Nat, c ≤ 23 →
      running_status_map c ∈ [some 0, some 2, some 3, some 8, some 9]) ∧
    (∀ c : Nat, 23 < c → running_status_map c = none) := by
  constructor
  · decide
  · intro c hc
    have hfind : running_status_table.find? (fun kv => kv.1 == c) = none := by
      apply List.find?_eq_none.mpr
      intro kv hkv
      have h1 : kv.1 ≤ 23 := by fin_cases hkv <;> simp
      simp only [beq_iff_eq]
      omega
    simp [running_status_map, hfind]

/-- Witness for the status-map theorem at codes 18 and 99. -/
theorem mebay_status_map_canonical_witness :
    running_status_map 18 ∈ [some 0, some 2, some 3, some 8, some 9] ∧
      running_status_map 99 = none :=
  ⟨mebay_status_map_canonical.1 18 (by decide), mebay_status_map_canonical.2 99 (by decide)⟩

/-- C7: the fault-list computation processes the four warning words from
the highest register address (value[4], 0x1047) down to the lowest
(value[1], 0x1044) with the per-word offsets 0x00, 0x10, 0x20, 0x30 in
that processing order, every emitted identifier of slot i lies in
[0x10 * i, 0x10 * i + 14], and identifiers from different words never
collide. -/
theorem mebay_warning_word_order (a w1 w2 w3 w4 : Nat) :
    (alarm_changed [a, w1, w2, w3, w4] =
      (if alarm_codes.any (fun kv => kv.1 == a) then [("e", a)] else [])
      ++ (wordFaults 0 w4 ++ (wordFaults 1 w3 ++ (wordFaults 2 w2 ++ wordFaults 3 w1)))) ∧
    (∀ i w s c, (s, c) ∈ wordFaults i w → 0x10 * i ≤ c ∧ c ≤ 0x10 * i + 14) ∧
    (∀ i j wi wj si ci sj cj, i ≠ j →
      (si, ci) ∈ wordFaults i wi → (sj, cj) ∈ wordFaults j wj → ci ≠ cj) := by
  refine ⟨alarm_changed_cons a w1 w2 w3 w4,
    fun i w s c h => wordFaults_bound i w s c h, ?_⟩
  intro i j wi wj si ci sj cj hij hi hj
  have b1 := wordFaults_bound i wi si ci hi
  have b2 := wordFaults_bound j wj sj cj hj
  omega

/-- Witness for the word-order theorem at warning word 6 in slot 0. -/
theorem mebay_warning_word_order_witness :
    ("w", 13) ∈ wordFaults 0 6 ∧ (0x10 * 0 ≤ 13 ∧ 13 ≤ 0x10 * 0 + 14) :=
  ⟨by decide, (mebay_warning_word_order 0 0 0 0 6).2.1 0 6 "w" 13 (by decide)⟩

/-- C8: unpack_bits inspects exactly the bit positions 15 down to 1 in
that order and never bit 0, so the fault list is unchanged when bit 0 of
any warning word is toggled. -/
theorem unpack_bits_positions (val : Nat) :
    unpack_bits val =
      [(val >>> 15) &&& 1, (val >>> 14) &&& 1, (val >>> 13) &&& 1, (val >>> 12) &&& 1,
       (val >>> 11) &&& 1, (val >>> 10) &&& 1, (val >>> 9) &&& 1, (val >>> 8) &&& 1,
       (val >>> 7) &&& 1, (val >>> 6) &&& 1, (val >>> 5) &&& 1, (val >>> 4) &&& 1,
       (val >>> 3) &&& 1, (val >>> 2) &&& 1, (val >>> 1) &&& 1] ∧
    (∀ a w1 w2 w3 w4 b1 b2 b3 b4 : Nat, b1 ≤ 1 → b2 ≤ 1 → b3 ≤ 1 → b4 ≤ 1 →
      alarm_changed [a, 2 * w1 + b1, 2 * w2 + b2, 2 * w3 + b3, 2 * w4 + b4] =
        alarm_changed [a, 2 * w1, 2 * w2, 2 * w3, 2 * w4]) := by
  constructor
  · rfl
  · intro a w1 w2 w3 w4 b1 b2 b3 b4 h1 h2 h3 h4
    rw [alarm_changed_cons, alarm_changed_cons,
      wordFaults_drop_bit0 0 w4 b4 h4, wordFaults_drop_bit0 1 w3 b3 h3,
      wordFaults_drop_bit0 2 w2 b2 h2, wordFaults_drop_bit0 3 w1 b1 h1]

/-- Witness for the bit-position theorem: toggling bit 0 of every
warning word leaves the fault list unchanged. -/
theorem unpack_bits_positions_witness :
    ((1 : Nat) ≤ 1) ∧
      alarm_changed [0, 2 * 0 + 1, 2 * 0 + 1, 2 * 0 + 1, 2 * 3 + 1] =
        alarm_changed [0, 2 * 0, 2 * 0, 2 * 0, 2 * 3] :=
  ⟨by decide,
    (unpack_bits_positions 0).2 0 0 0 0 3 1 1 1 1 (by decide) (by decide) (by decide)
      (by decide)⟩

/-- C9: the utils.timeout context manager sets the timeout attribute to
t for the body and restores exactly the original value afterwards, both
on normal return and when the body raises; no other attribute of the
object is touched by the manager, and the body's result or exception is
passed through unchanged. -/
theorem timeout_restores {α β ε γ : Type} (o : PyObj α β) (t : α)
    (body : PyObj α β → PyObj α β × Except ε γ) :
    (with_timeout o t body).1.timeout = o.timeout ∧
    (with_timeout o t body).1.other = (body { o with timeout := t }).1.other ∧
    (with_timeout o t body).2 = (body { o with timeout := t }).2 :=
  ⟨rfl, rfl, rfl⟩

/-- C10: a stop request issues exactly one write transaction
(0x2000, [7623, 0x1111]) regardless of the current operating state, and
returns True when the write succeeds. -/
theorem genset_stop_unconditional (ok : Nat → Bool) (running : Bool) :
    ((_start_genset ok running false).2 = [(0x2000, [7623, 0x1111])]) ∧
    (ok 0 = true →
      _start_genset ok running false = (Except.ok true, [(0x2000, [7623, 0x1111])])) := by
  constructor
  · cases h0 : ok 0 <;> simp [_start_genset, SCF_PASSWORD, SCF_TELEMETRY_STOP, h0]
  · intro h0
    simp [_start_genset, SCF_PASSWORD, SCF_TELEMETRY_STOP, h0]

/-- Witness for the stop theorem on a running device with a succeeding
write. -/
theorem genset_stop_unconditional_witness :
    ((fun _ : Nat => true) 0 = true) ∧
      _start_genset (fun _ => true) true false =
        (Except.ok true, [(0x2000, [7623, 0x1111])]) :=
  ⟨rfl, (genset_stop_unconditional (fun _ => true) true).2 rfl⟩
